import Mathlib

/-!
Shallow embedding of `src/src/OpenColorIO/ops/gradingtone/GradingToneOpCPU.cpp`.

Machine `float`/`double` arithmetic is embedded as exact rational arithmetic
(`ℚ`); decimal literals of the source become the corresponding exact rationals.
The C library routines `sqrtf`, `std::log`, `std::pow` are external to the
repository and are modelled as explicit function parameters (`sq`, `lg`, `pw`)
of the definitions that call them; every theorem below quantifies over them,
so no conclusion depends on their values unless stated.  Division follows
Lean's convention `q / 0 = 0`; the spec's coefficient-table invariant
(strictly increasing breakpoints) keeps all divisors nonzero on the inputs the
theorems constrain.  A buffer of `numPixels` packed RGBA pixels is modelled as
a `List Pixel`.  The log-encoding adapter of the linear-style variant is
additionally modelled over `ℝ` (with `Real.logb`/`Real.rpow` giving the exact
semantics of the `base2 * std::log` / `std::pow(2, ·)` idioms) for the
round-trip theorem.
-/

/-- Model of the `float3` helper struct (GradingToneOpCPU.cpp lines 136-168):
three components with elementwise arithmetic. -/
structure float3 where
  v0 : ℚ
  v1 : ℚ
  v2 : ℚ
  deriving DecidableEq

instance : Add float3 := ⟨fun x y => ⟨x.v0 + y.v0, x.v1 + y.v1, x.v2 + y.v2⟩⟩

instance : Mul float3 := ⟨fun x y => ⟨x.v0 * y.v0, x.v1 * y.v1, x.v2 * y.v2⟩⟩

instance : Div float3 := ⟨fun x y => ⟨x.v0 / y.v0, x.v1 / y.v1, x.v2 / y.v2⟩⟩

instance : HAdd float3 ℚ float3 := ⟨fun x p => ⟨x.v0 + p, x.v1 + p, x.v2 + p⟩⟩

instance : HAdd ℚ float3 float3 := ⟨fun p x => ⟨p + x.v0, p + x.v1, p + x.v2⟩⟩

instance : HSub float3 ℚ float3 := ⟨fun x p => ⟨x.v0 - p, x.v1 - p, x.v2 - p⟩⟩

instance : HSub ℚ float3 float3 := ⟨fun p x => ⟨p - x.v0, p - x.v1, p - x.v2⟩⟩

instance : HMul float3 ℚ float3 := ⟨fun x p => ⟨x.v0 * p, x.v1 * p, x.v2 * p⟩⟩

instance : HMul ℚ float3 float3 := ⟨fun p x => ⟨p * x.v0, p * x.v1, p * x.v2⟩⟩

instance : HDiv float3 ℚ float3 := ⟨fun x p => ⟨x.v0 / p, x.v1 / p, x.v2 / p⟩⟩

/-- Model of `float3::setOnLimit` (lines 159-164): per-component branch
selection, `m_val[c] = val[c] < limit ? below[c] : above[c]`.  The C++ method
mutates `this`; the model returns the new value. -/
def float3.setOnLimit (val : float3) (limit : ℚ) (below above : float3) : float3 :=
  ⟨if val.v0 < limit then below.v0 else above.v0,
   if val.v1 < limit then below.v1 else above.v1,
   if val.v2 < limit then below.v2 else above.v2⟩

/-- Model of the scalar specialization `setOnLimit<float>` (lines 311-315). -/
def setOnLimitF (val limit below above : ℚ) : ℚ :=
  if val < limit then below else above

/-- Model of the `float3` instantiation of the `Sqrt` template (lines 317-321):
componentwise application of the C library routine `sqrtf`, which is passed in
as `sq`. -/
def Sqrt3 (sq : ℚ → ℚ) (v : float3) : float3 :=
  ⟨sq v.v0, sq v.v1, sq v.v2⟩

/-- Channel selector `RGBMChannel` (declared in GradingToneOpData.h, used
throughout the renderer); `M` is the master channel. -/
inductive RGBMChannel where
  | R
  | G
  | B
  | M
  deriving DecidableEq

/-- Modelled from the spec: one scalar control per channel
{Red, Green, Blue, Master} for a band (§3 "GradingTone parameters"); the
`GradingRGBMSW` band type of the public headers, outside `src/`. -/
structure RGBM where
  m_red : ℚ
  m_green : ℚ
  m_blue : ℚ
  m_master : ℚ
  deriving DecidableEq

/-- Modelled from the spec: the control-value accessor (§6, "a control-value
accessor returning the neutral-checked scalar per band/channel");
`GetChannelValue(band, channel)` of the headers, outside `src/`. -/
def GetChannelValue (v : RGBM) (channel : RGBMChannel) : ℚ :=
  match channel with
  | RGBMChannel.R => v.m_red
  | RGBMChannel.G => v.m_green
  | RGBMChannel.B => v.m_blue
  | RGBMChannel.M => v.m_master

/-- Modelled from the spec: the `GradingTone` parameter set (§3): one `RGBM`
control per named band plus the symmetric-contrast scalar.  Declared in the
public headers, outside `src/`. -/
structure GradingTone where
  m_midtones : RGBM
  m_highlights : RGBM
  m_shadows : RGBM
  m_whites : RGBM
  m_blacks : RGBM
  m_scontrast : ℚ
  deriving DecidableEq

/-- Modelled from the spec: the precomputed coefficient table
`GradingTonePreRender` (§3): per channel and band, breakpoints `x`,
ordinates `y`, slopes `m`, a gain for white/black and a pivot plus two
correction-coefficient sets for contrast.  Derived outside `src/`; this core
only reads it, with exactly the array shapes the renderer indexes
(6 entries for midtones, 3/2 for highlight-shadow, 2 for white-black,
`Fin 2` top/bottom sets for contrast).  The `Bool` index models the
`[isShadow ? 1 : 0]` / `[isBlack ? 1 : 0]` indexing of the source. -/
structure GradingTonePreRender where
  m_midX : RGBMChannel → Fin 6 → ℚ
  m_midY : RGBMChannel → Fin 6 → ℚ
  m_midM : RGBMChannel → Fin 6 → ℚ
  m_hsX : Bool → RGBMChannel → Fin 3 → ℚ
  m_hsY : Bool → RGBMChannel → Fin 3 → ℚ
  m_hsM : Bool → RGBMChannel → Fin 2 → ℚ
  m_wbX : Bool → RGBMChannel → Fin 2 → ℚ
  m_wbY : Bool → RGBMChannel → Fin 2 → ℚ
  m_wbM : Bool → RGBMChannel → Fin 2 → ℚ
  m_wbGain : Bool → RGBMChannel → ℚ
  m_scX : Fin 2 → Fin 3 → ℚ
  m_scY : Fin 2 → Fin 3 → ℚ
  m_scM : Fin 2 → Fin 2 → ℚ
  m_pivot : ℚ

/-- One packed RGBA pixel: four floats (§3 "Pixel"); the 4th slot is
alpha/unused. -/
structure Pixel where
  r : ℚ
  g : ℚ
  b : ℚ
  a : ℚ
  deriving DecidableEq

/-- Read `out[channel]`; channel `M` has index 3, i.e. the 4th slot (the
renderer only dereferences `out[channel]` for non-master channels). -/
def Pixel.get (p : Pixel) (channel : RGBMChannel) : ℚ :=
  match channel with
  | RGBMChannel.R => p.r
  | RGBMChannel.G => p.g
  | RGBMChannel.B => p.b
  | RGBMChannel.M => p.a

/-- Write `out[channel] = x` (scalar `Set`, lines 337-341). -/
def Pixel.set (p : Pixel) (channel : RGBMChannel) (x : ℚ) : Pixel :=
  match channel with
  | RGBMChannel.R => ⟨x, p.g, p.b, p.a⟩
  | RGBMChannel.G => ⟨p.r, x, p.b, p.a⟩
  | RGBMChannel.B => ⟨p.r, p.g, x, p.a⟩
  | RGBMChannel.M => ⟨p.r, p.g, p.b, x⟩

/-- Read the RGB triple of a pixel, `float3 t{ out }`. -/
def Pixel.toF3 (p : Pixel) : float3 :=
  ⟨p.r, p.g, p.b⟩

/-- Write the RGB triple back, `out[0..2] = res[0..2]` (the `float3` `Set`
template instantiation, lines 329-335); alpha untouched. -/
def Pixel.setF3 (p : Pixel) (v : float3) : Pixel :=
  ⟨v.v0, v.v1, v.v2, p.a⟩

/-- Modelled from the spec: `Clamp` from MathUtils.h (outside `src/`),
clamping a value to `[lo, hi]` (§4.1: "a midtone control value `mid` clamped
to [0.01, 1.99]"). -/
def Clamp (v lo hi : ℚ) : ℚ :=
  min (max v lo) hi

/-- Scalar per-channel body of `GradingToneFwdOpCPU::mids` (lines 249-271):
five Hermite-blend segments selected by comparisons of `t` against the
breakpoints, with linear extrapolation outside `x0`/`x5`; the later `if`
statements of the source override the earlier selection, here expressed by
rebinding `res`. -/
def midsScalar (x y m : Fin 6 → ℚ) (t : ℚ) : ℚ :=
  let tL := (t - x 0) / (x 1 - x 0)
  let tM := (t - x 1) / (x 2 - x 1)
  let tR := (t - x 2) / (x 3 - x 2)
  let tR2 := (t - x 3) / (x 4 - x 3)
  let tR3 := (t - x 4) / (x 5 - x 4)
  let fL := tL * (x 1 - x 0) * (tL * 0.5 * (m 1 - m 0) + m 0) + y 0
  let fM := tM * (x 2 - x 1) * (tM * 0.5 * (m 2 - m 1) + m 1) + y 1
  let fR := tR * (x 3 - x 2) * (tR * 0.5 * (m 3 - m 2) + m 2) + y 2
  let fR2 := tR2 * (x 4 - x 3) * (tR2 * 0.5 * (m 4 - m 3) + m 3) + y 3
  let fR3 := tR3 * (x 5 - x 4) * (tR3 * 0.5 * (m 5 - m 4) + m 4) + y 4
  let res := if t < x 1 then fL else fM
  let res := if t > x 2 then fR else res
  let res := if t > x 3 then fR2 else res
  let res := if t > x 4 then fR3 else res
  let res := if t < x 0 then y 0 + (t - x 0) * m 0 else res
  let res := if t > x 5 then y 5 + (t - x 5) * m 5 else res
  res

/-- Triple-wide master body of `GradingToneFwdOpCPU::mids` (lines 274-300):
the same formulas on all three components with per-component branch selection
via `setOnLimit`. -/
def midsMaster (x y m : Fin 6 → ℚ) (t : float3) : float3 :=
  let tL := (t - x 0) / (x 1 - x 0)
  let tM := (t - x 1) / (x 2 - x 1)
  let tR := (t - x 2) / (x 3 - x 2)
  let tR2 := (t - x 3) / (x 4 - x 3)
  let tR3 := (t - x 4) / (x 5 - x 4)
  let fL := tL * (x 1 - x 0) * (tL * (0.5 : ℚ) * (m 1 - m 0) + m 0) + y 0
  let fM := tM * (x 2 - x 1) * (tM * (0.5 : ℚ) * (m 2 - m 1) + m 1) + y 1
  let fR := tR * (x 3 - x 2) * (tR * (0.5 : ℚ) * (m 3 - m 2) + m 2) + y 2
  let fR2 := tR2 * (x 4 - x 3) * (tR2 * (0.5 : ℚ) * (m 4 - m 3) + m 3) + y 3
  let fR3 := tR3 * (x 5 - x 4) * (tR3 * (0.5 : ℚ) * (m 5 - m 4) + m 4) + y 4
  let fR4 := (t - x 0) * m 0 + y 0
  let fR5 := (t - x 5) * m 5 + y 5
  let res := float3.setOnLimit t (x 1) fL fM
  let res := float3.setOnLimit t (x 2) res fR
  let res := float3.setOnLimit t (x 3) res fR2
  let res := float3.setOnLimit t (x 4) res fR3
  let res := float3.setOnLimit t (x 0) fR4 res
  let res := float3.setOnLimit t (x 5) res fR5
  res

/-- Model of `GradingToneFwdOpCPU::mids` (lines 223-303): clamp the midtone
control to `[0.01, 1.99]`; when the clamped control is not 1, evaluate the
scalar path on `out[channel]` for R/G/B or the triple-wide path on the RGB
triple for master; otherwise leave the pixel untouched. -/
def mids (v : GradingTone) (vpr : GradingTonePreRender) (channel : RGBMChannel)
    (out : Pixel) : Pixel :=
  let mid_adj := Clamp (GetChannelValue v.m_midtones channel) 0.01 1.99
  if mid_adj ≠ 1 then
    if channel ≠ RGBMChannel.M then
      Pixel.set out channel
        (midsScalar (vpr.m_midX channel) (vpr.m_midY channel) (vpr.m_midM channel)
          (Pixel.get out channel))
    else
      Pixel.setF3 out
        (midsMaster (vpr.m_midX RGBMChannel.M) (vpr.m_midY RGBMChannel.M)
          (vpr.m_midM RGBMChannel.M) (Pixel.toF3 out))
  else
    out

/-- Scalar instantiation of the `ComputeHS` template (lines 343-382),
highlight/shadow curve on one component: compress regime (`val < 1`) with two
Bezier-like segments, expand regime (`val > 1`) via the analytic quadratic
inverse with `Sqrt` (= `sq`), branch selection against `y0/y1/y2`; the final
`Set` writes `out[channel]`.  When `val == 1` the initial `res{ t }` is
written back unchanged. -/
def ComputeHSf (sq : ℚ → ℚ) (channel : RGBMChannel) (out : Pixel)
    (val x0 x1 x2 y0 y1 y2 m0 m2 t : ℚ) : Pixel :=
  if val < 1 then
    let tL := (t - x0) / (x1 - x0)
    let tR := (t - x1) / (x2 - x1)
    let fL := y0 * (1 - tL * tL) + y1 * (tL * tL) + m0 * (1 - tL) * tL * (x1 - x0)
    let fR := y1 * (1 - tR) * (1 - tR) + y2 * (2 - tR) * tR + m2 * (tR - 1) * tR * (x2 - x1)
    let res := setOnLimitF t x1 fL fR
    let r0 := (t - x0) * m0 + y0
    let res := setOnLimitF t x0 r0 res
    let r2 := (t - x2) * m2 + y2
    let res := setOnLimitF t x2 res r2
    Pixel.set out channel res
  else if val > 1 then
    let bL := m0 * (x1 - x0)
    let aL := y1 - y0 - m0 * (x1 - x0)
    let cL := y0 - t
    let discrimL := sq (bL * bL - 4 * aL * cL)
    let outL := (-2 * cL) / (discrimL + bL) * (x1 - x0) + x0
    let bR := 2 * y2 - 2 * y1 - m2 * (x2 - x1)
    let aR := y1 - y2 + m2 * (x2 - x1)
    let cR := y1 - t
    let discrimR := sq (bR * bR - 4 * aR * cR)
    let outR := (-2 * cR) / (discrimR + bR) * (x2 - x1) + x1
    let res := setOnLimitF t y1 outL outR
    let r0 := (t - y0) / m0 + x0
    let res := setOnLimitF t y0 r0 res
    let r2 := (t - y2) / m2 + x2
    let res := setOnLimitF t y2 res r2
    Pixel.set out channel res
  else
    Pixel.set out channel t

/-- `float3` instantiation of the `ComputeHS` template (lines 343-382) for the
master channel: same formulas on the RGB triple with per-component
`setOnLimit` selection; the `float3` `Set` writes all three components. -/
def ComputeHS3 (sq : ℚ → ℚ) (out : Pixel)
    (val x0 x1 x2 y0 y1 y2 m0 m2 : ℚ) (t : float3) : Pixel :=
  if val < 1 then
    let tL := (t - x0) / (x1 - x0)
    let tR := (t - x1) / (x2 - x1)
    let fL := y0 * ((1 : ℚ) - tL * tL) + y1 * (tL * tL) + m0 * ((1 : ℚ) - tL) * tL * (x1 - x0)
    let fR := y1 * ((1 : ℚ) - tR) * ((1 : ℚ) - tR) + y2 * ((2 : ℚ) - tR) * tR
              + m2 * (tR - (1 : ℚ)) * tR * (x2 - x1)
    let res := float3.setOnLimit t x1 fL fR
    let r0 := (t - x0) * m0 + y0
    let res := float3.setOnLimit t x0 r0 res
    let r2 := (t - x2) * m2 + y2
    let res := float3.setOnLimit t x2 res r2
    Pixel.setF3 out res
  else if val > 1 then
    let bL := m0 * (x1 - x0)
    let aL := y1 - y0 - m0 * (x1 - x0)
    let cL := y0 - t
    let discrimL := Sqrt3 sq (bL * bL - (4 : ℚ) * aL * cL)
    let outL := ((-2 : ℚ) * cL) / (discrimL + bL) * (x1 - x0) + x0
    let bR := 2 * y2 - 2 * y1 - m2 * (x2 - x1)
    let aR := y1 - y2 + m2 * (x2 - x1)
    let cR := y1 - t
    let discrimR := Sqrt3 sq (bR * bR - (4 : ℚ) * aR * cR)
    let outR := ((-2 : ℚ) * cR) / (discrimR + bR) * (x2 - x1) + x1
    let res := float3.setOnLimit t y1 outL outR
    let r0 := (t - y0) / m0 + x0
    let res := float3.setOnLimit t y0 r0 res
    let r2 := (t - y2) / m2 + x2
    let res := float3.setOnLimit t y2 res r2
    Pixel.setF3 out res
  else
    Pixel.setF3 out t

/-- Model of `GradingToneFwdOpCPU::highlightShadow` (lines 384-415): fetch the
band control (highlights are inverted, `val = 2 - val`), return unchanged when
`val == 1`, otherwise run `ComputeHS` on the scalar component or the RGB
triple.  Coefficients are read at `[isShadow ? 1 : 0][channel]`, modelled by
the `Bool` index. -/
def highlightShadow (sq : ℚ → ℚ) (v : GradingTone) (vpr : GradingTonePreRender)
    (channel : RGBMChannel) (isShadow : Bool) (out : Pixel) : Pixel :=
  let val0 := if isShadow then GetChannelValue v.m_shadows channel
              else GetChannelValue v.m_highlights channel
  let val := if !isShadow then 2 - val0 else val0
  if val = 1 then
    out
  else
    let x0 := vpr.m_hsX isShadow channel 0
    let x1 := vpr.m_hsX isShadow channel 1
    let x2 := vpr.m_hsX isShadow channel 2
    let y0 := vpr.m_hsY isShadow channel 0
    let y1 := vpr.m_hsY isShadow channel 1
    let y2 := vpr.m_hsY isShadow channel 2
    let m0 := vpr.m_hsM isShadow channel 0
    let m2 := vpr.m_hsM isShadow channel 1
    if channel ≠ RGBMChannel.M then
      ComputeHSf sq channel out val x0 x1 x2 y0 y1 y2 m0 m2 (Pixel.get out channel)
    else
      ComputeHS3 sq out val x0 x1 x2 y0 y1 y2 m0 m2 (Pixel.toF3 out)

/-- Scalar instantiation of the `ComputeWB` template (lines 417-477),
white/black curve on one component.  `mtest < 1`: single Hermite segment with
linear extrapolation.  `mtest > 1`: pre-scale by `gain`, analytic quadratic
inverse, then for whites an inverse-gain rescale plus quadratic extrapolation
beyond `x1`, for blacks a linear extrapolation beyond `y1` then inverse-gain
rescale.  When `mtest == 1` neither branch runs and the pixel is untouched. -/
def ComputeWBf (sq : ℚ → ℚ) (channel : RGBMChannel) (isBlack : Bool) (out : Pixel)
    (val x0 x1 y0 y1 m0 m1 gain t : ℚ) : Pixel :=
  let mtest := if !isBlack then val else 2 - val
  if mtest < 1 then
    let tlocal := (t - x0) / (x1 - x0)
    let res := tlocal * (x1 - x0) * (tlocal * 0.5 * (m1 - m0) + m0) + y0
    let res0 := y0 + (t - x0) * m0
    let res := setOnLimitF t x0 res0 res
    let res1 := y1 + (t - x1) * m1
    let res := setOnLimitF t x1 res res1
    Pixel.set out channel res
  else if mtest > 1 then
    let t := if !isBlack then (t - x0) * gain + x0 else (t - x1) * gain + x1
    let a := 0.5 * (m1 - m0) * (x1 - x0)
    let b := m0 * (x1 - x0)
    let c := y0 - t
    let discrim := sq (b * b - 4 * a * c)
    let tmp := (-2 * c) / (discrim + b)
    let res := tmp * (x1 - x0) + x0
    let res0 := x0 + (t - y0) / m0
    let res := setOnLimitF t y0 res0 res
    if !isBlack then
      let res := (res - x0) / gain + x0
      let new_y1 := (x1 - x0) / gain + x0
      let xd := x0 + (x1 - x0) * 0.99
      let md := m0 + (xd - x0) * (m1 - m0) / (x1 - x0)
      let md := 1 / md
      let aim_m := (1 / m1 - md) / (x1 - xd)
      let bb := 1 / m1 - aim_m * x1
      let cc := new_y1 - bb * x1 - 0.5 * aim_m * x1 * x1
      let t := (t - x0) / gain + x0
      let res1 := (0.5 * aim_m * t + bb) * t + cc
      let res := setOnLimitF t x1 res res1
      Pixel.set out channel res
    else
      let res1 := x1 + (t - y1) / m1
      let res := setOnLimitF t y1 res res1
      let res := (res - x1) / gain + x1
      Pixel.set out channel res
  else
    out

/-- `float3` instantiation of the `ComputeWB` template (lines 417-477) for the
master channel: same formulas on the RGB triple with per-component
`setOnLimit` selection. -/
def ComputeWB3 (sq : ℚ → ℚ) (isBlack : Bool) (out : Pixel)
    (val x0 x1 y0 y1 m0 m1 gain : ℚ) (t : float3) : Pixel :=
  let mtest := if !isBlack then val else 2 - val
  if mtest < 1 then
    let tlocal := (t - x0) / (x1 - x0)
    let res := tlocal * (x1 - x0) * (tlocal * (0.5 : ℚ) * (m1 - m0) + m0) + y0
    let res0 := y0 + (t - x0) * m0
    let res := float3.setOnLimit t x0 res0 res
    let res1 := y1 + (t - x1) * m1
    let res := float3.setOnLimit t x1 res res1
    Pixel.setF3 out res
  else if mtest > 1 then
    let t := if !isBlack then (t - x0) * gain + x0 else (t - x1) * gain + x1
    let a := 0.5 * (m1 - m0) * (x1 - x0)
    let b := m0 * (x1 - x0)
    let c := y0 - t
    let discrim := Sqrt3 sq (b * b - (4 : ℚ) * a * c)
    let tmp := ((-2 : ℚ) * c) / (discrim + b)
    let res := tmp * (x1 - x0) + x0
    let res0 := x0 + (t - y0) / m0
    let res := float3.setOnLimit t y0 res0 res
    if !isBlack then
      let res := (res - x0) / gain + x0
      let new_y1 := (x1 - x0) / gain + x0
      let xd := x0 + (x1 - x0) * 0.99
      let md := m0 + (xd - x0) * (m1 - m0) / (x1 - x0)
      let md := 1 / md
      let aim_m := (1 / m1 - md) / (x1 - xd)
      let bb := 1 / m1 - aim_m * x1
      let cc := new_y1 - bb * x1 - 0.5 * aim_m * x1 * x1
      let t := (t - x0) / gain + x0
      let res1 := ((0.5 : ℚ) * aim_m * t + bb) * t + cc
      let res := float3.setOnLimit t x1 res res1
      Pixel.setF3 out res
    else
      let res1 := x1 + (t - y1) / m1
      let res := float3.setOnLimit t y1 res res1
      let res := (res - x1) / gain + x1
      Pixel.setF3 out res
  else
    out

/-- Model of `GradingToneFwdOpCPU::whiteBlack` (lines 479-503): fetch the band
control and coefficients (at `[isBlack ? 1 : 0][channel]`) and run `ComputeWB`
on the scalar component or the RGB triple; there is no early return, the
band-neutral no-op lives inside `ComputeWB`. -/
def whiteBlack (sq : ℚ → ℚ) (v : GradingTone) (vpr : GradingTonePreRender)
    (channel : RGBMChannel) (isBlack : Bool) (out : Pixel) : Pixel :=
  let val := if isBlack then GetChannelValue v.m_blacks channel
             else GetChannelValue v.m_whites channel
  let x0 := vpr.m_wbX isBlack channel 0
  let x1 := vpr.m_wbX isBlack channel 1
  let y0 := vpr.m_wbY isBlack channel 0
  let y1 := vpr.m_wbY isBlack channel 1
  let m0 := vpr.m_wbM isBlack channel 0
  let m1 := vpr.m_wbM isBlack channel 1
  let gain := vpr.m_wbGain isBlack channel
  if channel ≠ RGBMChannel.M then
    ComputeWBf sq channel isBlack out val x0 x1 y0 y1 m0 m1 gain (Pixel.get out channel)
  else
    ComputeWB3 sq isBlack out val x0 x1 y0 y1 m0 m1 gain (Pixel.toF3 out)

/-- Model of `GradingToneFwdOpCPU::scontrast` (lines 505-556): when the
contrast control is not 1, remap it to an effective multiplier, apply the
pivot-centered linear contrast to the RGB triple, then override the top end
(comparing the original `t` against the top coefficients `x1`/`x2`) and the
bottom end (comparing `t` against the bottom coefficients `x2`/`x1`) with
Hermite-blend corrections. -/
def scontrast (v : GradingTone) (vpr : GradingTonePreRender) (out : Pixel) : Pixel :=
  let contrast := v.m_scontrast
  if contrast ≠ 1 then
    let contrast := if contrast > 1 then 1 / (1.8125 - 0.8125 * min contrast 1.99)
                    else 0.28125 + 0.71875 * max contrast 0.01
    let t := Pixel.toF3 out
    let outColor := (t - vpr.m_pivot) * contrast + vpr.m_pivot
    -- Top end
    let x1t := vpr.m_scX 0 1
    let x2t := vpr.m_scX 0 2
    let y1t := vpr.m_scY 0 1
    let y2t := vpr.m_scY 0 2
    let m0t := vpr.m_scM 0 0
    let m3t := vpr.m_scM 0 1
    let tRt := (t - x1t) / (x2t - x1t)
    let rest := tRt * (x2t - x1t) * (tRt * (0.5 : ℚ) * (m3t - m0t) + m0t) + y1t
    let outColor := float3.setOnLimit t x1t outColor rest
    let res2t := y2t + (t - x2t) * m3t
    let outColor := float3.setOnLimit t x2t outColor res2t
    -- Bottom end
    let x1b := vpr.m_scX 1 1
    let x2b := vpr.m_scX 1 2
    let y1b := vpr.m_scY 1 1
    let m0b := vpr.m_scM 1 0
    let m3b := vpr.m_scM 1 1
    let tRb := (t - x1b) / (x2b - x1b)
    let resb := tRb * (x2b - x1b) * (tRb * (0.5 : ℚ) * (m3b - m0b) + m0b) + y1b
    let outColor := float3.setOnLimit t x2b resb outColor
    let res1b := y1b + (t - x1b) * m0b
    let outColor := float3.setOnLimit t x1b res1b outColor
    Pixel.setF3 out outColor
  else
    out

/-- Model of `ClampMaxRGB` (lines 558-566): clamp each color component to at
most 65504; the 4th component is untouched. -/
def ClampMaxRGB (out : Pixel) : Pixel :=
  ⟨min out.r 65504, min out.g 65504, min out.b 65504, out.a⟩

/-- Loop body of `GradingToneFwdOpCPU::apply` (lines 587-620): the fixed stage
sequence on one pixel — midtones R,G,B,M; highlights R,G,B,M; whites R,G,B,M;
shadows R,G,B,M; blacks R,G,B,M; symmetric contrast; clamp. -/
def processPixelFwd (sq : ℚ → ℚ) (v : GradingTone) (vpr : GradingTonePreRender)
    (p : Pixel) : Pixel :=
  let out := p
  let out := mids v vpr RGBMChannel.R out
  let out := mids v vpr RGBMChannel.G out
  let out := mids v vpr RGBMChannel.B out
  let out := mids v vpr RGBMChannel.M out
  let out := highlightShadow sq v vpr RGBMChannel.R false out
  let out := highlightShadow sq v vpr RGBMChannel.G false out
  let out := highlightShadow sq v vpr RGBMChannel.B false out
  let out := highlightShadow sq v vpr RGBMChannel.M false out
  let out := whiteBlack sq v vpr RGBMChannel.R false out
  let out := whiteBlack sq v vpr RGBMChannel.G false out
  let out := whiteBlack sq v vpr RGBMChannel.B false out
  let out := whiteBlack sq v vpr RGBMChannel.M false out
  let out := highlightShadow sq v vpr RGBMChannel.R true out
  let out := highlightShadow sq v vpr RGBMChannel.G true out
  let out := highlightShadow sq v vpr RGBMChannel.B true out
  let out := highlightShadow sq v vpr RGBMChannel.M true out
  let out := whiteBlack sq v vpr RGBMChannel.R true out
  let out := whiteBlack sq v vpr RGBMChannel.G true out
  let out := whiteBlack sq v vpr RGBMChannel.B true out
  let out := whiteBlack sq v vpr RGBMChannel.M true out
  let out := scontrast v vpr out
  ClampMaxRGB out

/-- Model of `GradingToneFwdOpCPU::apply` (lines 570-624): with the
local-bypass flag set, the buffer is copied unchanged (`memcpy`, or a no-op
when the buffers alias — indistinguishable in the functional model); otherwise
every pixel goes through the fixed stage sequence.  The buffer is the list of
its `numPixels` pixels. -/
def GradingToneFwdOpCPU.apply (bypass : Bool) (sq : ℚ → ℚ) (v : GradingTone)
    (vpr : GradingTonePreRender) (inImg : List Pixel) : List Pixel :=
  if bypass then
    inImg
  else
    inImg.map (processPixelFwd sq v vpr)

namespace LogLin

/-- Log-encoding breakpoint `xbrk` (line 648). -/
def xbrk : ℚ := 0.0041318374739483946

/-- Log-encoding constant `shift` (line 649). -/
def shift : ℚ := -0.000157849851665374

/-- Log-encoding constant `m = 1.f / (0.18f + shift)` (line 650). -/
def m : ℚ := 1 / (0.18 + shift)

/-- Log-encoding constant `gain` (line 651). -/
def gain : ℚ := 363.034608563

/-- Log-encoding constant `offs` (line 652). -/
def offs : ℚ := -7

/-- Log-domain breakpoint `ybrk` (line 653). -/
def ybrk : ℚ := -5.5

/-- Constant `base2 = 1.4426950408889634` (line 665), the `float` rounding of
`1/log(2)`, used to turn the C library natural log into a base-2 log. -/
def base2 : ℚ := 1.4426950408889634

end LogLin

/-- Lin-to-log block of `GradingToneLinearFwdOpCPU::apply` (lines 688-697,
scalar path): each color component below `xbrk` maps through the linear
scale+offset, at/above it through `base2 * log((x + shift) * m)`;
`out[3] = in[3]`.  The C library natural log is the parameter `lg`. -/
def linToLog (lg : ℚ → ℚ) (p : Pixel) : Pixel :=
  ⟨if p.r < LogLin.xbrk then p.r * LogLin.gain + LogLin.offs
   else LogLin.base2 * lg ((p.r + LogLin.shift) * LogLin.m),
   if p.g < LogLin.xbrk then p.g * LogLin.gain + LogLin.offs
   else LogLin.base2 * lg ((p.g + LogLin.shift) * LogLin.m),
   if p.b < LogLin.xbrk then p.b * LogLin.gain + LogLin.offs
   else LogLin.base2 * lg ((p.b + LogLin.shift) * LogLin.m),
   p.a⟩

/-- Log-to-lin block of `GradingToneLinearFwdOpCPU::apply` (lines 744-752,
scalar path): each color component below `ybrk` maps through the inverse
linear scale+offset, at/above it through `2^x * (0.18 + shift) - shift`; the
4th component is not touched.  The C library `std::pow(2.0f, ·)` is the
parameter `pw`. -/
def logToLin (pw : ℚ → ℚ) (p : Pixel) : Pixel :=
  ⟨if p.r < LogLin.ybrk then (p.r - LogLin.offs) / LogLin.gain
   else pw p.r * (0.18 + LogLin.shift) - LogLin.shift,
   if p.g < LogLin.ybrk then (p.g - LogLin.offs) / LogLin.gain
   else pw p.g * (0.18 + LogLin.shift) - LogLin.shift,
   if p.b < LogLin.ybrk then (p.b - LogLin.offs) / LogLin.gain
   else pw p.b * (0.18 + LogLin.shift) - LogLin.shift,
   p.a⟩

/-- Loop body of `GradingToneLinearFwdOpCPU::apply` (lines 669-756): lin-to-log
encode, the same fixed stage sequence as the plain forward renderer, log-to-lin
decode, clamp. -/
def processPixelLinFwd (sq lg pw : ℚ → ℚ) (v : GradingTone)
    (vpr : GradingTonePreRender) (p : Pixel) : Pixel :=
  let out := linToLog lg p
  let out := mids v vpr RGBMChannel.R out
  let out := mids v vpr RGBMChannel.G out
  let out := mids v vpr RGBMChannel.B out
  let out := mids v vpr RGBMChannel.M out
  let out := highlightShadow sq v vpr RGBMChannel.R false out
  let out := highlightShadow sq v vpr RGBMChannel.G false out
  let out := highlightShadow sq v vpr RGBMChannel.B false out
  let out := highlightShadow sq v vpr RGBMChannel.M false out
  let out := whiteBlack sq v vpr RGBMChannel.R false out
  let out := whiteBlack sq v vpr RGBMChannel.G false out
  let out := whiteBlack sq v vpr RGBMChannel.B false out
  let out := whiteBlack sq v vpr RGBMChannel.M false out
  let out := highlightShadow sq v vpr RGBMChannel.R true out
  let out := highlightShadow sq v vpr RGBMChannel.G true out
  let out := highlightShadow sq v vpr RGBMChannel.B true out
  let out := highlightShadow sq v vpr RGBMChannel.M true out
  let out := whiteBlack sq v vpr RGBMChannel.R true out
  let out := whiteBlack sq v vpr RGBMChannel.G true out
  let out := whiteBlack sq v vpr RGBMChannel.B true out
  let out := whiteBlack sq v vpr RGBMChannel.M true out
  let out := scontrast v vpr out
  let out := logToLin pw out
  ClampMaxRGB out

/-- Model of `GradingToneLinearFwdOpCPU::apply` (lines 631-760): identical
bypass fast path, then the per-pixel linear-style pipeline. -/
def GradingToneLinearFwdOpCPU.apply (bypass : Bool) (sq lg pw : ℚ → ℚ)
    (v : GradingTone) (vpr : GradingTonePreRender) (inImg : List Pixel) : List Pixel :=
  if bypass then
    inImg
  else
    inImg.map (processPixelLinFwd sq lg pw v vpr)

/-- Message of the `Exception` thrown by both reverse-direction stubs
(lines 769 and 781). -/
def invErrorMsg : String := "GradingTone inverse CPU not implemented."

/-- Model of `GradingToneRevOpCPU::apply` (lines 767-772): throws
unconditionally before touching either buffer; the thrown exception is the
`Except.error` and the output buffer is returned as it was. -/
def GradingToneRevOpCPU.apply (v : GradingTone) (inImg outImg : List Pixel)
    (numPixels : ℕ) : Except String Unit × List Pixel :=
  (Except.error invErrorMsg, outImg)

/-- Model of `GradingToneLinearRevOpCPU::apply` (lines 779-784): identical
unconditional throw. -/
def GradingToneLinearRevOpCPU.apply (v : GradingTone) (inImg outImg : List Pixel)
    (numPixels : ℕ) : Except String Unit × List Pixel :=
  (Except.error invErrorMsg, outImg)

/-- Exact-real semantics of the scalar lin-to-log mapping (lines 688-696): the
idiom `base2 * std::log(y)` with `base2` the rounding of `1/log(2)` denotes
the base-2 logarithm, embedded as `Real.logb 2`. -/
noncomputable def linToLogR (x : ℝ) : ℝ :=
  if x < (LogLin.xbrk : ℝ) then x * (LogLin.gain : ℝ) + (LogLin.offs : ℝ)
  else Real.logb 2 ((x + (LogLin.shift : ℝ)) * (LogLin.m : ℝ))

/-- Exact-real semantics of the scalar log-to-lin mapping (lines 744-752):
`std::pow(2.0f, y)` denotes the real power `2 ^ y`. -/
noncomputable def logToLinR (y : ℝ) : ℝ :=
  if y < (LogLin.ybrk : ℝ) then (y - (LogLin.offs : ℝ)) / (LogLin.gain : ℝ)
  else (2 : ℝ) ^ y * ((0.18 : ℝ) + (LogLin.shift : ℝ)) - (LogLin.shift : ℝ)

/-! Helper lemmas: every stage of the forward pipelines leaves the 4th (alpha)
component of the pixel untouched. -/

theorem Pixel.set_alpha (p : Pixel) (ch : RGBMChannel) (x : ℚ)
    (h : ch ≠ RGBMChannel.M) : (Pixel.set p ch x).a = p.a := by
  cases ch
  · rfl
  · rfl
  · rfl
  · exact absurd rfl h

theorem Pixel.setF3_alpha (p : Pixel) (v : float3) : (Pixel.setF3 p v).a = p.a := rfl

theorem ComputeHSf_alpha (sq : ℚ → ℚ) (ch : RGBMChannel) (out : Pixel)
    (val x0 x1 x2 y0 y1 y2 m0 m2 t : ℚ) (h : ch ≠ RGBMChannel.M) :
    (ComputeHSf sq ch out val x0 x1 x2 y0 y1 y2 m0 m2 t).a = out.a := by
  simp only [ComputeHSf]
  split_ifs <;> exact Pixel.set_alpha out ch _ h

theorem ComputeHS3_alpha (sq : ℚ → ℚ) (out : Pixel)
    (val x0 x1 x2 y0 y1 y2 m0 m2 : ℚ) (t : float3) :
    (ComputeHS3 sq out val x0 x1 x2 y0 y1 y2 m0 m2 t).a = out.a := by
  simp only [ComputeHS3]
  split_ifs <;> rfl

theorem ComputeWBf_alpha (sq : ℚ → ℚ) (ch : RGBMChannel) (isBlack : Bool)
    (out : Pixel) (val x0 x1 y0 y1 m0 m1 gain t : ℚ) (h : ch ≠ RGBMChannel.M) :
    (ComputeWBf sq ch isBlack out val x0 x1 y0 y1 m0 m1 gain t).a = out.a := by
  simp only [ComputeWBf]
  split_ifs <;> first
    | rfl
    | exact Pixel.set_alpha out ch _ h

theorem ComputeWB3_alpha (sq : ℚ → ℚ) (isBlack : Bool) (out : Pixel)
    (val x0 x1 y0 y1 m0 m1 gain : ℚ) (t : float3) :
    (ComputeWB3 sq isBlack out val x0 x1 y0 y1 m0 m1 gain t).a = out.a := by
  simp only [ComputeWB3]
  split_ifs <;> rfl

theorem mids_alpha (v : GradingTone) (vpr : GradingTonePreRender)
    (ch : RGBMChannel) (out : Pixel) : (mids v vpr ch out).a = out.a := by
  simp only [mids]
  split_ifs with h1 h2
  · exact Pixel.set_alpha out ch _ h2
  · rfl
  · rfl

theorem highlightShadow_alpha (sq : ℚ → ℚ) (v : GradingTone)
    (vpr : GradingTonePreRender) (ch : RGBMChannel) (s : Bool) (out : Pixel) :
    (highlightShadow sq v vpr ch s out).a = out.a := by
  simp only [highlightShadow]
  split_ifs <;> first
    | rfl
    | exact ComputeHSf_alpha _ _ _ _ _ _ _ _ _ _ _ _ _ (by assumption)
    | exact ComputeHS3_alpha _ _ _ _ _ _ _ _ _ _ _ _

theorem whiteBlack_alpha (sq : ℚ → ℚ) (v : GradingTone)
    (vpr : GradingTonePreRender) (ch : RGBMChannel) (s : Bool) (out : Pixel) :
    (whiteBlack sq v vpr ch s out).a = out.a := by
  simp only [whiteBlack]
  split_ifs <;> first
    | exact ComputeWBf_alpha _ _ _ _ _ _ _ _ _ _ _ _ _ (by assumption)
    | exact ComputeWB3_alpha _ _ _ _ _ _ _ _ _ _ _ _

theorem scontrast_alpha (v : GradingTone) (vpr : GradingTonePreRender)
    (out : Pixel) : (scontrast v vpr out).a = out.a := by
  simp only [scontrast]
  split_ifs <;> rfl

theorem clampMaxRGB_alpha (out : Pixel) : (ClampMaxRGB out).a = out.a := rfl

theorem linToLog_alpha (lg : ℚ → ℚ) (p : Pixel) : (linToLog lg p).a = p.a := rfl

theorem logToLin_alpha (pw : ℚ → ℚ) (p : Pixel) : (logToLin pw p).a = p.a := rfl

theorem processPixelFwd_alpha (sq : ℚ → ℚ) (v : GradingTone)
    (vpr : GradingTonePreRender) (p : Pixel) :
    (processPixelFwd sq v vpr p).a = p.a := by
  simp only [processPixelFwd, clampMaxRGB_alpha, scontrast_alpha,
    whiteBlack_alpha, highlightShadow_alpha, mids_alpha]

theorem processPixelLinFwd_alpha (sq lg pw : ℚ → ℚ) (v : GradingTone)
    (vpr : GradingTonePreRender) (p : Pixel) :
    (processPixelLinFwd sq lg pw v vpr p).a = p.a := by
  simp only [processPixelLinFwd, clampMaxRGB_alpha, scontrast_alpha,
    whiteBlack_alpha, highlightShadow_alpha, mids_alpha, logToLin_alpha,
    linToLog_alpha]

/-- C1: for every parameter set, input buffer, output buffer and pixel count,
calling `apply` on either reverse-direction variant fails with the
`GradingTone inverse CPU not implemented.` error and computes nothing: the
output buffer is returned exactly as it was. -/
theorem rev_apply_always_fails (v : GradingTone) (inImg outImg : List Pixel)
    (numPixels : ℕ) :
    GradingToneRevOpCPU.apply v inImg outImg numPixels
      = (Except.error invErrorMsg, outImg) ∧
    GradingToneLinearRevOpCPU.apply v inImg outImg numPixels
      = (Except.error invErrorMsg, outImg) :=
  ⟨rfl, rfl⟩

/-- C4: with the local-bypass flag set, both forward `apply` variants return
the input buffer bit-for-bit (every component of every pixel, alpha included),
for every parameter set, coefficient table and library-function model — hence
no curve stage is evaluated; when input and output buffers alias, the copy is
a pure no-op, which coincides with the copy in the functional model. -/
theorem bypass_is_exact_copy (sq lg pw : ℚ → ℚ) (v : GradingTone)
    (vpr : GradingTonePreRender) (inImg : List Pixel) :
    GradingToneFwdOpCPU.apply true sq v vpr inImg = inImg ∧
    GradingToneLinearFwdOpCPU.apply true sq lg pw v vpr inImg = inImg :=
  ⟨rfl, rfl⟩

/-- C3: in a non-bypassed plain forward `apply`, every output pixel is the
input pixel passed through exactly this fixed stage order: midtone R, G, B
then master; highlight R, G, B then master; white R, G, B then master; shadow
R, G, B then master; black R, G, B then master; then symmetric contrast; with
the final clamp applied after all bands.  Master is always last within each
band group, so it sees the values already adjusted by that band's R/G/B
passes. -/
theorem fwd_apply_stage_order (sq : ℚ → ℚ) (v : GradingTone)
    (vpr : GradingTonePreRender) (l : List Pixel) (i : ℕ) :
    (GradingToneFwdOpCPU.apply false sq v vpr l)[i]? =
      (l[i]?).map (fun p =>
        ClampMaxRGB
          (scontrast v vpr
            (whiteBlack sq v vpr RGBMChannel.M true
              (whiteBlack sq v vpr RGBMChannel.B true
                (whiteBlack sq v vpr RGBMChannel.G true
                  (whiteBlack sq v vpr RGBMChannel.R true
                    (highlightShadow sq v vpr RGBMChannel.M true
                      (highlightShadow sq v vpr RGBMChannel.B true
                        (highlightShadow sq v vpr RGBMChannel.G true
                          (highlightShadow sq v vpr RGBMChannel.R true
                            (whiteBlack sq v vpr RGBMChannel.M false
                              (whiteBlack sq v vpr RGBMChannel.B false
                                (whiteBlack sq v vpr RGBMChannel.G false
                                  (whiteBlack sq v vpr RGBMChannel.R false
                                    (highlightShadow sq v vpr RGBMChannel.M false
                                      (highlightShadow sq v vpr RGBMChannel.B false
                                        (highlightShadow sq v vpr RGBMChannel.G false
                                          (highlightShadow sq v vpr RGBMChannel.R false
                                            (mids v vpr RGBMChannel.M
                                              (mids v vpr RGBMChannel.B
                                                (mids v vpr RGBMChannel.G
                                                  (mids v vpr RGBMChannel.R
                                                    p)))))))))))))))))))))) := by
  show (List.map (processPixelFwd sq v vpr) l)[i]? = _
  rw [List.getElem?_map]
  rfl

/-- Helper: both per-pixel pipelines end in `ClampMaxRGB`, so every color
component of their result is at most 65504. -/
theorem processPixelFwd_clamped (sq : ℚ → ℚ) (v : GradingTone)
    (vpr : GradingTonePreRender) (p : Pixel) :
    (processPixelFwd sq v vpr p).r ≤ 65504 ∧
    (processPixelFwd sq v vpr p).g ≤ 65504 ∧
    (processPixelFwd sq v vpr p).b ≤ 65504 :=
  ⟨min_le_right _ _, min_le_right _ _, min_le_right _ _⟩

/-- Helper: the linear-style per-pixel pipeline is clamped the same way. -/
theorem processPixelLinFwd_clamped (sq lg pw : ℚ → ℚ) (v : GradingTone)
    (vpr : GradingTonePreRender) (p : Pixel) :
    (processPixelLinFwd sq lg pw v vpr p).r ≤ 65504 ∧
    (processPixelLinFwd sq lg pw v vpr p).g ≤ 65504 ∧
    (processPixelLinFwd sq lg pw v vpr p).b ≤ 65504 :=
  ⟨min_le_right _ _, min_le_right _ _, min_le_right _ _⟩

/-- C5: the final clamp maps each color component to `min · 65504`: every
clamped color component is at most 65504, a component above 65504 becomes
exactly 65504, a component at or below 65504 is unchanged, and the 4th
(alpha) component is never altered; consequently every pixel of a
non-bypassed forward apply (plain or linear-style) has all three color
components at most 65504. -/
theorem clamp_max_rgb_spec (p q q2 : Pixel) (sq lg pw : ℚ → ℚ) (v : GradingTone)
    (vpr : GradingTonePreRender) (l : List Pixel) (i : ℕ) :
    ((ClampMaxRGB p).r ≤ 65504 ∧ (ClampMaxRGB p).g ≤ 65504 ∧ (ClampMaxRGB p).b ≤ 65504) ∧
    (65504 < p.r → (ClampMaxRGB p).r = 65504) ∧
    (65504 < p.g → (ClampMaxRGB p).g = 65504) ∧
    (65504 < p.b → (ClampMaxRGB p).b = 65504) ∧
    (p.r ≤ 65504 → (ClampMaxRGB p).r = p.r) ∧
    (p.g ≤ 65504 → (ClampMaxRGB p).g = p.g) ∧
    (p.b ≤ 65504 → (ClampMaxRGB p).b = p.b) ∧
    (ClampMaxRGB p).a = p.a ∧
    ((GradingToneFwdOpCPU.apply false sq v vpr l)[i]? = some q →
      q.r ≤ 65504 ∧ q.g ≤ 65504 ∧ q.b ≤ 65504) ∧
    ((GradingToneLinearFwdOpCPU.apply false sq lg pw v vpr l)[i]? = some q2 →
      q2.r ≤ 65504 ∧ q2.g ≤ 65504 ∧ q2.b ≤ 65504) := by
  refine ⟨⟨min_le_right _ _, min_le_right _ _, min_le_right _ _⟩,
    fun h => min_eq_right h.le, fun h => min_eq_right h.le, fun h => min_eq_right h.le,
    fun h => min_eq_left h, fun h => min_eq_left h, fun h => min_eq_left h,
    rfl, fun h => ?_, fun h => ?_⟩
  · have h2 : (List.map (processPixelFwd sq v vpr) l)[i]? = some q := h
    rw [List.getElem?_map] at h2
    cases hm : l[i]? with
    | none => rw [hm] at h2; exact absurd h2 (by simp)
    | some p0 =>
        rw [hm] at h2
        have hq : processPixelFwd sq v vpr p0 = q := by simpa using h2
        rw [← hq]
        exact processPixelFwd_clamped sq v vpr p0
  · have h2 : (List.map (processPixelLinFwd sq lg pw v vpr) l)[i]? = some q2 := h
    rw [List.getElem?_map] at h2
    cases hm : l[i]? with
    | none => rw [hm] at h2; exact absurd h2 (by simp)
    | some p0 =>
        rw [hm] at h2
        have hq : processPixelLinFwd sq lg pw v vpr p0 = q2 := by simpa using h2
        rw [← hq]
        exact processPixelLinFwd_clamped sq lg pw v vpr p0

/-- C6: for every pixel, every setting of the grading controls and every model
of the library routines, the alpha/4th component of the output of a forward
apply — plain or linear-style, bypassed or not — equals the alpha/4th
component of the input pixel: no curve stage, the log-encoding adapter, and
the clamp ever modify it. -/
theorem fwd_apply_preserves_alpha (byp : Bool) (sq lg pw : ℚ → ℚ)
    (v : GradingTone) (vpr : GradingTonePreRender) (l : List Pixel) (i : ℕ) :
    ((GradingToneFwdOpCPU.apply byp sq v vpr l)[i]?).map Pixel.a
      = (l[i]?).map Pixel.a ∧
    ((GradingToneLinearFwdOpCPU.apply byp sq lg pw v vpr l)[i]?).map Pixel.a
      = (l[i]?).map Pixel.a := by
  cases byp with
  | true => exact ⟨rfl, rfl⟩
  | false =>
      constructor
      · show ((List.map (processPixelFwd sq v vpr) l)[i]?).map Pixel.a = _
        rw [List.getElem?_map]
        cases l[i]? with
        | none => rfl
        | some p => simp [processPixelFwd_alpha]
      · show ((List.map (processPixelLinFwd sq lg pw v vpr) l)[i]?).map Pixel.a = _
        rw [List.getElem?_map]
        cases l[i]? with
        | none => rfl
        | some p => simp [processPixelLinFwd_alpha]

/-- Example parameter set with every band at its neutral value 1. -/
def vEx : GradingTone :=
  ⟨⟨1, 1, 1, 1⟩, ⟨1, 1, 1, 1⟩, ⟨1, 1, 1, 1⟩, ⟨1, 1, 1, 1⟩, ⟨1, 1, 1, 1⟩, 1⟩

/-- Example coefficient table: midtone breakpoints 0..5, all other data 0,
white/black gain 1, pivot 0. -/
def vprEx : GradingTonePreRender :=
  ⟨fun _ i => (i.val : ℚ), fun _ _ => 0, fun _ _ => 0,
   fun _ _ _ => 0, fun _ _ _ => 0, fun _ _ _ => 0,
   fun _ _ _ => 0, fun _ _ _ => 0, fun _ _ _ => 0, fun _ _ => 1,
   fun _ _ => 0, fun _ _ => 0, fun _ _ => 0, 0⟩

/-- Example pixel. -/
def pEx : Pixel := ⟨0.3, 0.5, 0.7, 0.25⟩

/-- Witness for `clamp_max_rgb_spec` at a concrete pixel. -/
theorem clamp_max_rgb_spec_witness :
    ((65504 : ℚ) < 70000 ∧ (ClampMaxRGB ⟨70000, 3, -2, 9⟩).r = 65504) ∧
    ((3 : ℚ) ≤ 65504 ∧ (ClampMaxRGB ⟨70000, 3, -2, 9⟩).g = 3) :=
  ⟨⟨by norm_num,
    (clamp_max_rgb_spec ⟨70000, 3, -2, 9⟩ ⟨0, 0, 0, 0⟩ ⟨0, 0, 0, 0⟩ id id id
      vEx vprEx [] 0).2.1 (by norm_num)⟩,
   ⟨by norm_num,
    (clamp_max_rgb_spec ⟨70000, 3, -2, 9⟩ ⟨0, 0, 0, 0⟩ ⟨0, 0, 0, 0⟩ id id id
      vEx vprEx [] 0).2.2.2.2.2.1 (by norm_num)⟩⟩

/-- Helper: `ComputeWB` with a neutral control (`mtest == 1`) runs neither
branch and leaves the pixel untouched (scalar instantiation). -/
theorem ComputeWBf_neutral (sq : ℚ → ℚ) (ch : RGBMChannel) (isBlack : Bool)
    (out : Pixel) (x0 x1 y0 y1 m0 m1 gain t : ℚ) :
    ComputeWBf sq ch isBlack out 1 x0 x1 y0 y1 m0 m1 gain t = out := by
  cases isBlack <;> norm_num [ComputeWBf]

/-- Helper: `ComputeWB` with a neutral control, `float3` instantiation. -/
theorem ComputeWB3_neutral (sq : ℚ → ℚ) (isBlack : Bool) (out : Pixel)
    (x0 x1 y0 y1 m0 m1 gain : ℚ) (t : float3) :
    ComputeWB3 sq isBlack out 1 x0 x1 y0 y1 m0 m1 gain t = out := by
  cases isBlack <;> norm_num [ComputeWB3]

/-- C2: band-neutral controls short-circuit: for every band (midtones,
highlights, shadows, whites, blacks, symmetric contrast), every channel and
every pixel, a control value of exactly 1 makes that band's evaluator return
the pixel unchanged (exact early-out, not near-identity); moreover each
band's evaluator reads only its own band's control, so setting one band to
neutral cannot change any other band's output. -/
theorem neutral_control_identity (sq : ℚ → ℚ) (v w : GradingTone)
    (vpr : GradingTonePreRender) (ch : RGBMChannel) (out : Pixel) :
    (GetChannelValue v.m_midtones ch = 1 → mids v vpr ch out = out) ∧
    (GetChannelValue v.m_highlights ch = 1 →
      highlightShadow sq v vpr ch false out = out) ∧
    (GetChannelValue v.m_shadows ch = 1 →
      highlightShadow sq v vpr ch true out = out) ∧
    (GetChannelValue v.m_whites ch = 1 → whiteBlack sq v vpr ch false out = out) ∧
    (GetChannelValue v.m_blacks ch = 1 → whiteBlack sq v vpr ch true out = out) ∧
    (v.m_scontrast = 1 → scontrast v vpr out = out) ∧
    (v.m_midtones = w.m_midtones → mids v vpr ch out = mids w vpr ch out) ∧
    (v.m_highlights = w.m_highlights →
      highlightShadow sq v vpr ch false out = highlightShadow sq w vpr ch false out) ∧
    (v.m_shadows = w.m_shadows →
      highlightShadow sq v vpr ch true out = highlightShadow sq w vpr ch true out) ∧
    (v.m_whites = w.m_whites →
      whiteBlack sq v vpr ch false out = whiteBlack sq w vpr ch false out) ∧
    (v.m_blacks = w.m_blacks →
      whiteBlack sq v vpr ch true out = whiteBlack sq w vpr ch true out) ∧
    (v.m_scontrast = w.m_scontrast → scontrast v vpr out = scontrast w vpr out) := by
  refine ⟨fun h => ?_, fun h => ?_, fun h => ?_, fun h => ?_, fun h => ?_, fun h => ?_,
    fun h => ?_, fun h => ?_, fun h => ?_, fun h => ?_, fun h => ?_, fun h => ?_⟩
  · simp only [mids, h]
    norm_num [Clamp]
  · norm_num [highlightShadow, h]
  · norm_num [highlightShadow, h]
  · simp [whiteBlack, h, ComputeWBf_neutral, ComputeWB3_neutral]
  · simp [whiteBlack, h, ComputeWBf_neutral, ComputeWB3_neutral]
  · simp only [scontrast, h]
    norm_num
  · simp only [mids, h]
  · simp [highlightShadow, h]
  · simp [highlightShadow, h]
  · simp [whiteBlack, h]
  · simp [whiteBlack, h]
  · simp only [scontrast, h]

/-- Witness for `neutral_control_identity`: with every control neutral, the
midtone, white and contrast stages leave a concrete pixel untouched. -/
theorem neutral_control_identity_witness :
    GetChannelValue vEx.m_midtones RGBMChannel.R = 1 ∧
    mids vEx vprEx RGBMChannel.R pEx = pEx ∧
    whiteBlack id vEx vprEx RGBMChannel.G false pEx = pEx ∧
    scontrast vEx vprEx pEx = pEx :=
  ⟨by decide,
   (neutral_control_identity id vEx vEx vprEx RGBMChannel.R pEx).1 (by decide),
   (neutral_control_identity id vEx vEx vprEx RGBMChannel.G pEx).2.2.2.1 (by decide),
   (neutral_control_identity id vEx vEx vprEx RGBMChannel.R pEx).2.2.2.2.2.1 (by decide)⟩

/-! Componentwise evaluation lemmas for the `float3` arithmetic, used to
relate the triple-wide code paths to scalar expressions. -/

@[simp] theorem f3_add_v0 (x y : float3) : (x + y).v0 = x.v0 + y.v0 := rfl

@[simp] theorem f3_add_v1 (x y : float3) : (x + y).v1 = x.v1 + y.v1 := rfl

@[simp] theorem f3_add_v2 (x y : float3) : (x + y).v2 = x.v2 + y.v2 := rfl

@[simp] theorem f3_mul_v0 (x y : float3) : (x * y).v0 = x.v0 * y.v0 := rfl

@[simp] theorem f3_mul_v1 (x y : float3) : (x * y).v1 = x.v1 * y.v1 := rfl

@[simp] theorem f3_mul_v2 (x y : float3) : (x * y).v2 = x.v2 * y.v2 := rfl

@[simp] theorem f3_div_v0 (x y : float3) : (x / y).v0 = x.v0 / y.v0 := rfl

@[simp] theorem f3_div_v1 (x y : float3) : (x / y).v1 = x.v1 / y.v1 := rfl

@[simp] theorem f3_div_v2 (x y : float3) : (x / y).v2 = x.v2 / y.v2 := rfl

@[simp] theorem f3_addq_v0 (x : float3) (p : ℚ) : (x + p).v0 = x.v0 + p := rfl

@[simp] theorem f3_addq_v1 (x : float3) (p : ℚ) : (x + p).v1 = x.v1 + p := rfl

@[simp] theorem f3_addq_v2 (x : float3) (p : ℚ) : (x + p).v2 = x.v2 + p := rfl

@[simp] theorem q_addf3_v0 (p : ℚ) (x : float3) : (p + x).v0 = p + x.v0 := rfl

@[simp] theorem q_addf3_v1 (p : ℚ) (x : float3) : (p + x).v1 = p + x.v1 := rfl

@[simp] theorem q_addf3_v2 (p : ℚ) (x : float3) : (p + x).v2 = p + x.v2 := rfl

@[simp] theorem f3_subq_v0 (x : float3) (p : ℚ) : (x - p).v0 = x.v0 - p := rfl

@[simp] theorem f3_subq_v1 (x : float3) (p : ℚ) : (x - p).v1 = x.v1 - p := rfl

@[simp] theorem f3_subq_v2 (x : float3) (p : ℚ) : (x - p).v2 = x.v2 - p := rfl

@[simp] theorem q_subf3_v0 (p : ℚ) (x : float3) : (p - x).v0 = p - x.v0 := rfl

@[simp] theorem q_subf3_v1 (p : ℚ) (x : float3) : (p - x).v1 = p - x.v1 := rfl

@[simp] theorem q_subf3_v2 (p : ℚ) (x : float3) : (p - x).v2 = p - x.v2 := rfl

@[simp] theorem f3_mulq_v0 (x : float3) (p : ℚ) : (x * p).v0 = x.v0 * p := rfl

@[simp] theorem f3_mulq_v1 (x : float3) (p : ℚ) : (x * p).v1 = x.v1 * p := rfl

@[simp] theorem f3_mulq_v2 (x : float3) (p : ℚ) : (x * p).v2 = x.v2 * p := rfl

@[simp] theorem q_mulf3_v0 (p : ℚ) (x : float3) : (p * x).v0 = p * x.v0 := rfl

@[simp] theorem q_mulf3_v1 (p : ℚ) (x : float3) : (p * x).v1 = p * x.v1 := rfl

@[simp] theorem q_mulf3_v2 (p : ℚ) (x : float3) : (p * x).v2 = p * x.v2 := rfl

@[simp] theorem f3_divq_v0 (x : float3) (p : ℚ) : (x / p).v0 = x.v0 / p := rfl

@[simp] theorem f3_divq_v1 (x : float3) (p : ℚ) : (x / p).v1 = x.v1 / p := rfl

@[simp] theorem f3_divq_v2 (x : float3) (p : ℚ) : (x / p).v2 = x.v2 / p := rfl

@[simp] theorem f3_setOnLimit_v0 (val : float3) (limit : ℚ) (below above : float3) :
    (float3.setOnLimit val limit below above).v0
      = if val.v0 < limit then below.v0 else above.v0 := rfl

@[simp] theorem f3_setOnLimit_v1 (val : float3) (limit : ℚ) (below above : float3) :
    (float3.setOnLimit val limit below above).v1
      = if val.v1 < limit then below.v1 else above.v1 := rfl

@[simp] theorem f3_setOnLimit_v2 (val : float3) (limit : ℚ) (below above : float3) :
    (float3.setOnLimit val limit below above).v2
      = if val.v2 < limit then below.v2 else above.v2 := rfl

@[simp] theorem sqrt3_v0 (sq : ℚ → ℚ) (v : float3) : (Sqrt3 sq v).v0 = sq v.v0 := rfl

@[simp] theorem sqrt3_v1 (sq : ℚ → ℚ) (v : float3) : (Sqrt3 sq v).v1 = sq v.v1 := rfl

@[simp] theorem sqrt3_v2 (sq : ℚ → ℚ) (v : float3) : (Sqrt3 sq v).v2 = sq v.v2 := rfl

@[simp] theorem toF3_v0 (p : Pixel) : p.toF3.v0 = p.r := rfl

@[simp] theorem toF3_v1 (p : Pixel) : p.toF3.v1 = p.g := rfl

@[simp] theorem toF3_v2 (p : Pixel) : p.toF3.v2 = p.b := rfl

@[simp] theorem setF3_r (p : Pixel) (v : float3) : (p.setF3 v).r = v.v0 := rfl

@[simp] theorem setF3_g (p : Pixel) (v : float3) : (p.setF3 v).g = v.v1 := rfl

@[simp] theorem setF3_b (p : Pixel) (v : float3) : (p.setF3 v).b = v.v2 := rfl

/-- C8: the Midtone Curve contract.  The clamped control lies in
`[0.01, 1.99]`; for a non-neutral clamped control the scalar path is invoked
on `out[channel]`; and, for strictly increasing breakpoints, the scalar path
partitions the line into 5 interior segments selected by strict comparisons
against `x1..x4`, each evaluated by the quadratic Hermite blend
`u*(xR - xL)*(u*0.5*(mR - mL) + mL) + yL` with `u = (t - xL)/(xR - xL)`, and
extrapolates linearly with slope `m0` from `y0` below `x0` and with slope `m5`
from `y5` above `x5`. -/
theorem midtone_curve_contract (v : GradingTone) (vpr : GradingTonePreRender)
    (ch : RGBMChannel) (out : Pixel) (x y m : Fin 6 → ℚ) (t : ℚ)
    (hx01 : x 0 < x 1) (hx12 : x 1 < x 2) (hx23 : x 2 < x 3)
    (hx34 : x 3 < x 4) (hx45 : x 4 < x 5) :
    (0.01 ≤ Clamp (GetChannelValue v.m_midtones ch) 0.01 1.99 ∧
      Clamp (GetChannelValue v.m_midtones ch) 0.01 1.99 ≤ 1.99) ∧
    (ch ≠ RGBMChannel.M → Clamp (GetChannelValue v.m_midtones ch) 0.01 1.99 ≠ 1 →
      mids v vpr ch out = Pixel.set out ch
        (midsScalar (vpr.m_midX ch) (vpr.m_midY ch) (vpr.m_midM ch)
          (Pixel.get out ch))) ∧
    (t < x 0 → midsScalar x y m t = y 0 + (t - x 0) * m 0) ∧
    (x 0 ≤ t → t < x 1 → midsScalar x y m t =
      (t - x 0) / (x 1 - x 0) * (x 1 - x 0)
        * ((t - x 0) / (x 1 - x 0) * 0.5 * (m 1 - m 0) + m 0) + y 0) ∧
    (x 1 ≤ t → t ≤ x 2 → midsScalar x y m t =
      (t - x 1) / (x 2 - x 1) * (x 2 - x 1)
        * ((t - x 1) / (x 2 - x 1) * 0.5 * (m 2 - m 1) + m 1) + y 1) ∧
    (x 2 < t → t ≤ x 3 → midsScalar x y m t =
      (t - x 2) / (x 3 - x 2) * (x 3 - x 2)
        * ((t - x 2) / (x 3 - x 2) * 0.5 * (m 3 - m 2) + m 2) + y 2) ∧
    (x 3 < t → t ≤ x 4 → midsScalar x y m t =
      (t - x 3) / (x 4 - x 3) * (x 4 - x 3)
        * ((t - x 3) / (x 4 - x 3) * 0.5 * (m 4 - m 3) + m 3) + y 3) ∧
    (x 4 < t → t ≤ x 5 → midsScalar x y m t =
      (t - x 4) / (x 5 - x 4) * (x 5 - x 4)
        * ((t - x 4) / (x 5 - x 4) * 0.5 * (m 5 - m 4) + m 4) + y 4) ∧
    (x 5 < t → midsScalar x y m t = y 5 + (t - x 5) * m 5) := by
  refine ⟨⟨le_min (le_max_right _ _) (by norm_num), min_le_right _ _⟩,
    fun h1 h2 => ?_, fun h => ?_, fun h1 h2 => ?_, fun h1 h2 => ?_,
    fun h1 h2 => ?_, fun h1 h2 => ?_, fun h1 h2 => ?_, fun h => ?_⟩
  · simp only [mids]
    rw [if_pos h2, if_pos h1]
  · simp only [midsScalar]
    split_ifs <;> first | rfl | linarith
  · simp only [midsScalar]
    split_ifs <;> first | rfl | linarith
  · simp only [midsScalar]
    split_ifs <;> first | rfl | linarith
  · simp only [midsScalar]
    split_ifs <;> first | rfl | linarith
  · simp only [midsScalar]
    split_ifs <;> first | rfl | linarith
  · simp only [midsScalar]
    split_ifs <;> first | rfl | linarith
  · simp only [midsScalar]
    split_ifs <;> first | rfl | linarith

/-- Concrete strictly increasing breakpoints 0..5 for witnesses. -/
def xW : Fin 6 → ℚ
  | ⟨0, _⟩ => 0
  | ⟨1, _⟩ => 1
  | ⟨2, _⟩ => 2
  | ⟨3, _⟩ => 3
  | ⟨4, _⟩ => 4
  | ⟨5, _⟩ => 5

/-- Concrete all-zero ordinates/slopes for witnesses. -/
def zero6 : Fin 6 → ℚ := fun _ => 0

/-- Witness for `midtone_curve_contract`: breakpoints `0..5`, zero ordinates
and slopes, input `t = 1.5` lands on segment 2 and evaluates to 0. -/
theorem midtone_curve_contract_witness :
    (xW 1 ≤ 1.5 ∧ (1.5 : ℚ) ≤ xW 2) ∧
    midsScalar xW zero6 zero6 1.5 = 0 := by
  have e0 : xW 0 = 0 := rfl
  have e1 : xW 1 = 1 := rfl
  have e2 : xW 2 = 2 := rfl
  have e3 : xW 3 = 3 := rfl
  have e4 : xW 4 = 4 := rfl
  have e5 : xW 5 = 5 := rfl
  refine ⟨⟨by norm_num [e1], by norm_num [e2]⟩, ?_⟩
  have h := (midtone_curve_contract vEx vprEx RGBMChannel.R pEx
    xW zero6 zero6 1.5
    (by norm_num [e0, e1]) (by norm_num [e1, e2]) (by norm_num [e2, e3])
    (by norm_num [e3, e4]) (by norm_num [e4, e5])).2.2.2.2.1
    (by norm_num [e1]) (by norm_num [e2])
  rw [h]
  norm_num [e1, e2, zero6]

/-- Ordinates for the C7 counterexample: 1 at index 2, else 0 (a coefficient
table with a jump discontinuity between segments 2 and 3 at `x2`). -/
def yW : Fin 6 → ℚ
  | ⟨2, _⟩ => 1
  | _ => 0

/-- Parameter set with a non-neutral midtone control 1.5 on every channel. -/
def vC7 : GradingTone :=
  ⟨⟨1.5, 1.5, 1.5, 1.5⟩, ⟨1, 1, 1, 1⟩, ⟨1, 1, 1, 1⟩, ⟨1, 1, 1, 1⟩, ⟨1, 1, 1, 1⟩, 1⟩

/-- Coefficient table giving every channel (R and Master included) the same
midtone coefficients `xW`/`yW`/0. -/
def vprC7 : GradingTonePreRender :=
  ⟨fun _ => xW, fun _ => yW, fun _ _ => 0,
   fun _ _ _ => 0, fun _ _ _ => 0, fun _ _ _ => 0,
   fun _ _ _ => 0, fun _ _ _ => 0, fun _ _ _ => 0, fun _ _ => 1,
   fun _ _ => 0, fun _ _ => 0, fun _ _ => 0, 0⟩

/-- Pixel whose red component sits exactly on the breakpoint `x2 = 2`. -/
def pC7 : Pixel := ⟨2, 0, 0, 0⟩

/-- C7 counterexample: with the same coefficients on the R and Master
channels and the red component exactly at the breakpoint `x2`, the Master
(triple-wide) code path and the scalar per-channel code path of `mids`
disagree: the scalar branch conditions keep the left segment at `t = x2`
while `setOnLimit` selects the right segment, and the table is discontinuous
there. -/
theorem master_scalar_breakpoint_counterexample :
    (mids vC7 vprC7 RGBMChannel.M pC7).r ≠ (mids vC7 vprC7 RGBMChannel.R pC7).r := by
  have exW0 : xW 0 = 0 := rfl
  have exW1 : xW 1 = 1 := rfl
  have exW2 : xW 2 = 2 := rfl
  have exW3 : xW 3 = 3 := rfl
  have exW4 : xW 4 = 4 := rfl
  have exW5 : xW 5 = 5 := rfl
  have eyW1 : yW 1 = 0 := rfl
  have eyW2 : yW 2 = 1 := rfl
  have eyW0 : yW 0 = 0 := rfl
  norm_num [mids, midsScalar, midsMaster, Clamp, GetChannelValue, vC7, vprC7,
    pC7, Pixel.set, Pixel.get, Pixel.setF3, Pixel.toF3, float3.setOnLimit,
    exW0, exW1, exW2, exW3, exW4, exW5, eyW0, eyW1, eyW2]
  decide

/-- Helper: flipping a strict comparison in a conditional when the compared
values differ. -/
theorem ite_flip_of_ne {α : Sort _} (t s : ℚ) (h : t ≠ s) (a b : α) :
    (if t < s then a else b) = if s < t then b else a := by
  rcases lt_trichotomy t s with h1 | h1 | h1
  · rw [if_pos h1, if_neg (asymm h1)]
  · exact absurd h1 h
  · rw [if_neg (asymm h1), if_pos h1]

/-- C7 amended: for every coefficient set and input, the Master (triple-wide,
per-component `setOnLimit`) code path of the midtone curve computes exactly
the same value as the scalar per-channel code path with the same coefficients
at every input `t` that is not exactly equal to one of the breakpoints
`x2, x3, x4, x5`; at those four breakpoints the scalar path selects the
left-hand segment (`t > xi` comparisons) while the triple-wide path selects
the right-hand one (`val < limit` comparisons), so they agree there only for
tables whose adjacent segments meet continuously. -/
theorem master_scalar_paths_agree_off_breakpoints (x y m : Fin 6 → ℚ)
    (t t1 t2 : ℚ) (h2 : t ≠ x 2) (h3 : t ≠ x 3) (h4 : t ≠ x 4) (h5 : t ≠ x 5) :
    (midsMaster x y m ⟨t, t1, t2⟩).v0 = midsScalar x y m t := by
  simp only [midsMaster, midsScalar, f3_setOnLimit_v0, f3_add_v0, f3_mul_v0,
    f3_div_v0, f3_addq_v0, q_addf3_v0, f3_subq_v0, q_subf3_v0, f3_mulq_v0,
    q_mulf3_v0, f3_divq_v0]
  rw [ite_flip_of_ne t (x 2) h2, ite_flip_of_ne t (x 3) h3,
    ite_flip_of_ne t (x 4) h4, ite_flip_of_ne t (x 5) h5]
  split_ifs <;> ring

/-- Witness for `master_scalar_paths_agree_off_breakpoints` at `t = 2.5` away
from every breakpoint of the table `xW`. -/
theorem master_scalar_paths_agree_witness :
    (2.5 : ℚ) ≠ xW 2 ∧
    (midsMaster xW zero6 zero6 ⟨2.5, 0, 0⟩).v0 = midsScalar xW zero6 zero6 2.5 := by
  have exW2 : xW 2 = 2 := rfl
  have exW3 : xW 3 = 3 := rfl
  have exW4 : xW 4 = 4 := rfl
  have exW5 : xW 5 = 5 := rfl
  exact ⟨by norm_num [exW2],
    master_scalar_paths_agree_off_breakpoints xW zero6 zero6 2.5 0 0
      (by norm_num [exW2]) (by norm_num [exW3]) (by norm_num [exW4])
      (by norm_num [exW5])⟩

/-- C10: in the symmetric-contrast stage with non-neutral contrast, the
top-end and bottom-end corrections select their region by comparing the
original pre-contrast component `t` against the correction breakpoints, and
inside a corrected region (at or above the top `x1`, or below the bottom
`x2`) the output component depends only on `t` and the correction
coefficients: two runs with different non-neutral contrast values and
different pivots, but the same correction tables, produce identical output
components there. -/
theorem scontrast_correction_regions (v1 v2 : GradingTone)
    (vpr1 vpr2 : GradingTonePreRender) (out : Pixel)
    (hc1 : v1.m_scontrast ≠ 1) (hc2 : v2.m_scontrast ≠ 1)
    (hX : vpr1.m_scX = vpr2.m_scX) (hY : vpr1.m_scY = vpr2.m_scY)
    (hM : vpr1.m_scM = vpr2.m_scM) :
    (¬ out.r < vpr1.m_scX 0 1 ∨ out.r < vpr1.m_scX 1 2 →
      (scontrast v1 vpr1 out).r = (scontrast v2 vpr2 out).r) ∧
    (¬ out.g < vpr1.m_scX 0 1 ∨ out.g < vpr1.m_scX 1 2 →
      (scontrast v1 vpr1 out).g = (scontrast v2 vpr2 out).g) ∧
    (¬ out.b < vpr1.m_scX 0 1 ∨ out.b < vpr1.m_scX 1 2 →
      (scontrast v1 vpr1 out).b = (scontrast v2 vpr2 out).b) := by
  refine ⟨fun hreg => ?_, fun hreg => ?_, fun hreg => ?_⟩ <;>
  · simp only [scontrast, ← hX, ← hY, ← hM]
    rw [if_pos hc1, if_pos hc2]
    simp only [setF3_r, setF3_g, setF3_b, f3_setOnLimit_v0, f3_setOnLimit_v1,
      f3_setOnLimit_v2, f3_add_v0, f3_add_v1, f3_add_v2, f3_mul_v0, f3_mul_v1,
      f3_mul_v2, f3_div_v0, f3_div_v1, f3_div_v2, f3_addq_v0, f3_addq_v1,
      f3_addq_v2, q_addf3_v0, q_addf3_v1, q_addf3_v2, f3_subq_v0, f3_subq_v1,
      f3_subq_v2, q_subf3_v0, q_subf3_v1, q_subf3_v2, f3_mulq_v0, f3_mulq_v1,
      f3_mulq_v2, q_mulf3_v0, q_mulf3_v1, q_mulf3_v2, f3_divq_v0, f3_divq_v1,
      f3_divq_v2, toF3_v0, toF3_v1, toF3_v2]
    split_ifs <;> first
      | rfl
      | (rcases hreg with h | h <;> linarith)

/-- Parameter set with contrast 1.5 for the C10 witness. -/
def vC10a : GradingTone :=
  ⟨⟨1, 1, 1, 1⟩, ⟨1, 1, 1, 1⟩, ⟨1, 1, 1, 1⟩, ⟨1, 1, 1, 1⟩, ⟨1, 1, 1, 1⟩, 1.5⟩

/-- Parameter set with contrast 0.5 for the C10 witness. -/
def vC10b : GradingTone :=
  ⟨⟨1, 1, 1, 1⟩, ⟨1, 1, 1, 1⟩, ⟨1, 1, 1, 1⟩, ⟨1, 1, 1, 1⟩, ⟨1, 1, 1, 1⟩, 0.5⟩

/-- Witness for `scontrast_correction_regions`: with the all-zero correction
table of `vprEx`, the red component 0.3 lies in the top corrected region and
the outputs for contrast 1.5 and contrast 0.5 coincide. -/
theorem scontrast_correction_regions_witness :
    (vC10a.m_scontrast ≠ 1 ∧ ¬ pEx.r < vprEx.m_scX 0 1) ∧
    (scontrast vC10a vprEx pEx).r = (scontrast vC10b vprEx pEx).r :=
  ⟨⟨by norm_num [vC10a], by norm_num [pEx, vprEx]⟩,
   (scontrast_correction_regions vC10a vC10b vprEx vprEx pEx
      (by norm_num [vC10a]) (by norm_num [vC10b]) rfl rfl rfl).1
     (Or.inl (by norm_num [pEx, vprEx]))⟩

/-- C9: round trip of the log-encoding adapter in exact real arithmetic:
decoding the encoded value returns the input exactly, both on the linear
branch (any `x ≤ 0.004131`, which includes everything near zero and below)
and on the log branch (any `x ≥ 0.0041319`, which includes everything up to
and beyond the half-float maximum 65504).  The two guards exclude only a
band of width less than `2e-7` around the breakpoint `xbrk ≈ 0.00413184`,
inside which the two decode branch conditions are not exactly consistent
with the encode branch (the designed coincidence `gain*xbrk + offs = ybrk`
holds only to about `8e-13`) and the round trip is merely approximate. -/
theorem log_adapter_roundtrip (x : ℝ)
    (h : x ≤ 0.004131 ∨ (0.0041319 : ℝ) ≤ x) :
    logToLinR (linToLogR x) = x := by
  rcases h with hL | hR
  · have hx : x < ((LogLin.xbrk : ℚ) : ℝ) := by
      have : (0.004131 : ℝ) < ((LogLin.xbrk : ℚ) : ℝ) := by norm_num [LogLin.xbrk]
      linarith
    rw [linToLogR, if_pos hx]
    have hg : (0 : ℝ) < ((LogLin.gain : ℚ) : ℝ) := by norm_num [LogLin.gain]
    have henc : x * ((LogLin.gain : ℚ) : ℝ) + ((LogLin.offs : ℚ) : ℝ)
        < ((LogLin.ybrk : ℚ) : ℝ) := by
      have h1 : x * ((LogLin.gain : ℚ) : ℝ) ≤ 0.004131 * ((LogLin.gain : ℚ) : ℝ) :=
        mul_le_mul_of_nonneg_right hL hg.le
      have h2 : (0.004131 : ℝ) * ((LogLin.gain : ℚ) : ℝ) + ((LogLin.offs : ℚ) : ℝ)
          < ((LogLin.ybrk : ℚ) : ℝ) := by
        norm_num [LogLin.gain, LogLin.offs, LogLin.ybrk]
      linarith
    rw [logToLinR, if_pos henc]
    rw [add_sub_cancel_right, mul_div_cancel_right₀ x hg.ne']
  · have hshift : ((LogLin.shift : ℚ) : ℝ) = -0.000157849851665374 := by
      norm_num [LogLin.shift]
    have hxpos : (0 : ℝ) < x + ((LogLin.shift : ℚ) : ℝ) := by
      rw [hshift]; linarith
    have hmpos : (0 : ℝ) < ((LogLin.m : ℚ) : ℝ) := by
      norm_num [LogLin.m, LogLin.shift]
    have hq : (0 : ℝ) < (x + ((LogLin.shift : ℚ) : ℝ)) * ((LogLin.m : ℚ) : ℝ) :=
      mul_pos hxpos hmpos
    have hx : ¬ x < ((LogLin.xbrk : ℚ) : ℝ) := by
      have : ((LogLin.xbrk : ℚ) : ℝ) ≤ 0.0041319 := by norm_num [LogLin.xbrk]
      linarith
    rw [linToLogR, if_neg hx]
    have hybrk : ((LogLin.ybrk : ℚ) : ℝ) = -5.5 := by norm_num [LogLin.ybrk]
    have hkey : (2 : ℝ) ^ (-5.5 : ℝ)
        ≤ (x + ((LogLin.shift : ℚ) : ℝ)) * ((LogLin.m : ℚ) : ℝ) := by
      have hc : (2 : ℝ) ^ (-5.5 : ℝ)
          ≤ ((0.0041319 : ℝ) + ((LogLin.shift : ℚ) : ℝ)) * ((LogLin.m : ℚ) : ℝ) := by
        have hsq : ((2 : ℝ) ^ (-5.5 : ℝ)) ^ (2 : ℕ) = (2 : ℝ) ^ (-11 : ℝ) := by
          rw [← Real.rpow_natCast ((2 : ℝ) ^ (-5.5 : ℝ)) 2,
            ← Real.rpow_mul (by norm_num : (0 : ℝ) ≤ 2)]
          norm_num
        have h2v : (2 : ℝ) ^ (-11 : ℝ) = 1 / 2048 := by
          rw [show (-11 : ℝ) = ((-11 : ℤ) : ℝ) by norm_num, Real.rpow_intCast]
          norm_num
        have hcpos : (0 : ℝ)
            < ((0.0041319 : ℝ) + ((LogLin.shift : ℚ) : ℝ)) * ((LogLin.m : ℚ) : ℝ) := by
          apply mul_pos _ hmpos
          rw [hshift]; norm_num
        have hc2 : (1 : ℝ) / 2048
            ≤ (((0.0041319 : ℝ) + ((LogLin.shift : ℚ) : ℝ)) * ((LogLin.m : ℚ) : ℝ)) ^ (2 : ℕ) := by
          norm_num [LogLin.m, LogLin.shift]
        have hapos : (0 : ℝ) < (2 : ℝ) ^ (-5.5 : ℝ) :=
          Real.rpow_pos_of_pos (by norm_num) _
        nlinarith [hsq, h2v, hc2, hcpos, hapos]
      have hmono : ((0.0041319 : ℝ) + ((LogLin.shift : ℚ) : ℝ)) * ((LogLin.m : ℚ) : ℝ)
          ≤ (x + ((LogLin.shift : ℚ) : ℝ)) * ((LogLin.m : ℚ) : ℝ) := by
        apply mul_le_mul_of_nonneg_right _ hmpos.le
        linarith
      linarith
    have henc : ¬ Real.logb 2 ((x + ((LogLin.shift : ℚ) : ℝ)) * ((LogLin.m : ℚ) : ℝ))
        < ((LogLin.ybrk : ℚ) : ℝ) := by
      rw [not_lt, hybrk]
      exact (Real.le_logb_iff_rpow_le (by norm_num) hq).mpr hkey
    rw [logToLinR, if_neg henc]
    rw [Real.rpow_logb (by norm_num) (by norm_num) hq]
    have hm1 : ((LogLin.m : ℚ) : ℝ) * ((0.18 : ℝ) + ((LogLin.shift : ℚ) : ℝ)) = 1 := by
      norm_num [LogLin.m, LogLin.shift]
    linear_combination (x + ((LogLin.shift : ℚ) : ℝ)) * hm1

/-- Witness for `log_adapter_roundtrip` at `x = 2` (log branch). -/
theorem log_adapter_roundtrip_witness :
    ((0.0041319 : ℝ) ≤ 2) ∧ logToLinR (linToLogR 2) = 2 :=
  ⟨by norm_num, log_adapter_roundtrip 2 (Or.inr (by norm_num))⟩
